import Mathlib

/-!
Shallow embedding of the build-variant resolution and manifest-synthesis
pipeline of `cargo-ori` (src/src/apk.rs and src/src/main.rs), together with
theorems settling the frozen claims about it.

Conventions of the embedding:
* Rust `Option<T>` becomes `Option T`; fallible operations (`eyre::Result`)
  become `Except String _` carrying the source's error message text.
* Machine integers (`u32`) become `Nat`; where the width matters (JSON
  deserialization of a `u32` field) the bound `n < 2^32` is checked.
* Subprocess interaction is modelled by its data: the structured message
  stream consumed by `build_lib` becomes a `List Message`, the existence
  check performed by `download_android_sdk` becomes an explicit boolean
  input, and the network download becomes an observable action value.
-/

namespace CargoOri

/-- The four supported target architectures (the `apk::Target` enum consumed
by src/src/apk.rs). -/
inductive Target
  | Arm64V8a
  | ArmV7a
  | X86
  | X86_64
deriving DecidableEq, Repr

/-- `Device::target_triple` (src/src/apk.rs lines 146-153): the compiler
triple announced for each architecture. -/
def target_triple : Target → String
  | Target.Arm64V8a => "aarch64-linux-android"
  | Target.ArmV7a => "arm7-linux-androideabi"
  | Target.X86 => "i686-linux-android"
  | Target.X86_64 => "x86_64-linux-android"

/-- The triple-string match in `build_apk` (src/src/apk.rs lines 259-265):
maps a `--target` string to an architecture, failing on anything else.
The identical match appears in `build_apk` of src/src/main.rs lines 155-161. -/
def parse_target (t : String) : Except String Target :=
  if t = "aarch64-linux-android" then Except.ok Target.Arm64V8a
  else if t = "arm7-linux-androidabi" then Except.ok Target.ArmV7a
  else if t = "x86_64-linux-android" then Except.ok Target.X86_64
  else if t = "i686-linux-android" then Except.ok Target.X86
  else Except.error ("Target '" ++ t ++ "' is not supported for android")

/-- The ABI-string match in `get_devices` (src/src/apk.rs lines 186-192):
maps the device-reported `ro.product.cpu.abi` value to an architecture,
failing on anything else. -/
def parse_abi (s : String) : Except String Target :=
  if s = "arm64-v8a" then Except.ok Target.Arm64V8a
  else if s = "armabi-v7a" then Except.ok Target.ArmV7a
  else if s = "x86_64" then Except.ok Target.X86_64
  else if s = "x86" then Except.ok Target.X86
  else Except.error ("Unknown abi `" ++ s ++ "`")

/-- A connected device (src/src/apk.rs lines 140-143): bridge-assigned id
plus resolved architecture. -/
structure Device where
  id : String
  arch : Target
deriving DecidableEq, Repr

/-- The device-selection step of the install flow (src/src/apk.rs lines
44-49): the single attached device is taken; any other count bails with
one fixed message. -/
def select_device : List Device → Except String Device
  | [d] => Except.ok d
  | _ => Except.error "No device selected, use `--device`"

/-- The target-defaulting step of the install flow (src/src/apk.rs lines
51-53): an absent `--target` is filled from the selected device's triple;
an explicit one is kept. -/
def install_resolve_target (target : Option String) (device : Device) : Option String :=
  match target with
  | none => some (target_triple device.arch)
  | some t => some t

/-- The target requirement at the head of `build_apk` (src/src/apk.rs lines
254-257): a still-absent target is a hard failure. -/
def require_target (target : Option String) : Except String String :=
  match target with
  | some t => Except.ok t
  | none => Except.error "Target not specified, use `--target` to do so"

/-- The `[package.metadata.apk]` configuration block of src/src/apk.rs lines
109-129 (`struct Metadata`): all fields optional, the two lists defaulting
to empty. -/
structure Metadata where
  package : Option String := none
  version_code : Option Nat := none
  version_name : Option String := none
  icon : Option String := none
  uses_feature : List String := []
  uses_permission : List String := []
deriving DecidableEq, Repr

/-- The general project-metadata namespace (`OriMetadata`, declared outside
src/ and imported by src/src/apk.rs via `crate::OriMetadata`); `apk_manifest`
reads only its `name` field, so only that field is embedded. -/
structure OriMetadata where
  name : Option String := none
deriving DecidableEq, Repr

/-- Embeds Rust `str.replace("-", "_")` as used on the package name in
`apk_manifest` (src/src/apk.rs lines 414 and 458). -/
def replaceDashUnderscore (s : String) : String :=
  String.mk (s.data.map (fun c => if c = '-' then '_' else c))

/-- A `<meta-data>` entry pushed by `apk_manifest` (src/src/apk.rs lines
456-459). -/
structure MetaDataEntry where
  name : String
  value : String
deriving DecidableEq, Repr

/-- An intent filter pushed by `apk_manifest` (src/src/apk.rs lines
460-464); the remaining fields of the library type stay at their defaults. -/
structure IntentFilter where
  actions : List String := []
  categories : List String := []
deriving DecidableEq, Repr

/-- A `<uses-feature>` entry (src/src/apk.rs lines 428-433). -/
structure Feature where
  name : Option String := none
  required : Option Bool := none
  version : Option Nat := none
  opengles_version : Option Nat := none
deriving DecidableEq, Repr

/-- A `<uses-permission>` entry (src/src/apk.rs lines 437-440). -/
structure Permission where
  name : String
  max_sdk_version : Option Nat := none
deriving DecidableEq, Repr

/-- The activity record built by `apk_manifest` (src/src/apk.rs lines
452-489); fields the source leaves at `..Default::default()` are omitted. -/
structure Activity where
  name : Option String := none
  exported : Option Bool := none
  hardware_accelerated : Option Bool := none
  meta_data : List MetaDataEntry := []
  intent_filters : List IntentFilter := []
  config_changes : Option String := none
  launch_mode : Option String := none
  window_soft_input_mode : Option String := none
  label : Option String := none
deriving DecidableEq, Repr

/-- The `<application>` element as populated by `apk_manifest`
(src/src/apk.rs lines 443-450 and 491). -/
structure Application where
  label : Option String := none
  theme : Option String := none
  activities : List Activity := []
deriving DecidableEq, Repr

/-- The `<uses-sdk>` element (src/src/apk.rs lines 409-410). -/
structure SdkVersions where
  target_sdk_version : Option Nat := none
  min_sdk_version : Option Nat := none
deriving DecidableEq, Repr

/-- The synthesized `apk::AndroidManifest`, restricted to the fields
`apk_manifest` assigns (src/src/apk.rs lines 394-493). -/
structure AndroidManifest where
  compile_sdk_version : Option Nat := none
  platform_build_version_code : Option Nat := none
  compile_sdk_version_codename : Option Nat := none
  platform_build_version_name : Option Nat := none
  sdk : SdkVersions := {}
  package : Option String := none
  version_code : Option Nat := none
  version_name : Option String := none
  uses_feature : List Feature := []
  uses_permission : List Permission := []
  application : Application := {}
deriving DecidableEq, Repr

/-- `apk_manifest` (src/src/apk.rs lines 394-493). `packageName` and
`packageVersion` stand for `package.name` and `package.version.to_string()`
of the cargo package. The local constants follow the source: `version = 34`,
`version_code = 14` (the local shadowing the manifest field), and
`min_version = 21`. When the package id is absent from the apk metadata it
defaults to `"." ++` the dash-normalized project name (the `format!(".{}",
...)` of line 414). -/
def apk_manifest (packageName packageVersion : String)
    (ori_metadata : OriMetadata) (apk_metadata : Metadata) : AndroidManifest :=
  { compile_sdk_version := some 34
    platform_build_version_code := some 34
    compile_sdk_version_codename := some 14
    platform_build_version_name := some 14
    sdk := { target_sdk_version := some 34, min_sdk_version := some 21 }
    package :=
      match apk_metadata.package with
      | some p => some p
      | none => some ("." ++ replaceDashUnderscore packageName)
    version_code :=
      match apk_metadata.version_code with
      | some vc => some vc
      | none => some 1
    version_name :=
      match apk_metadata.version_name with
      | some vn => some vn
      | none => some packageVersion
    uses_feature :=
      apk_metadata.uses_feature.map (fun f => { name := some f })
    uses_permission :=
      apk_metadata.uses_permission.map (fun p => { name := p })
    application :=
      { label :=
          match ori_metadata.name with
          | some n => some n
          | none => some packageName
        theme := some "@android:style/Theme.DeviceDefault.NoActionBar.TranslucentDecor"
        activities :=
          [{ name := some "ori.oriactivity.OriActivity"
             exported := some true
             hardware_accelerated := some true
             meta_data :=
               [{ name := "android.app.lib_name"
                  value := replaceDashUnderscore packageName }]
             intent_filters :=
               [{ actions := ["android.intent.action.MAIN"]
                  categories := ["android.intent.category.LAUNCHER"] }]
             config_changes := some (String.intercalate "|"
               ["orientation", "keyboardHidden", "keyboard", "screenSize",
                "smallestScreenSize", "locale", "layoutDirection", "fontScale",
                "screenLayout", "density", "uiMode"])
             launch_mode := some "singleTop"
             window_soft_input_mode := some "adjustResize"
             label :=
               match ori_metadata.name with
               | some n => some n
               | none => some packageName }] } }

/-- The target of a compiler artifact, restricted to the field the pipeline
reads (`artifact.target.crate_types`). -/
structure CargoTarget where
  crate_types : List String
deriving DecidableEq, Repr

/-- A `cargo_metadata::Artifact`, restricted to the fields the pipeline
reads: package identity, declared crate types, and produced filenames. -/
structure Artifact where
  package_id : String
  target : CargoTarget
  filenames : List String
deriving DecidableEq, Repr

/-- One structured message of the compiler's output stream, as classified by
the match in `build_lib` (src/src/apk.rs lines 361-377). -/
inductive Message
  | compilerArtifact (a : Artifact)
  | compilerMessage (text : String)
  | buildScriptExecuted
  | buildFinished
  | textLine (s : String)
  | other
deriving DecidableEq, Repr

/-- The artifact-capture loop of `build_lib` (src/src/apk.rs lines 359-378):
each compiler-artifact message whose package id matches overwrites the
candidate; every other message kind leaves it unchanged. -/
def capture_artifact (pkgId : String) :
    List Message → Option Artifact → Option Artifact
  | [], acc => acc
  | Message.compilerArtifact a :: rest, acc =>
      capture_artifact pkgId rest (if a.package_id = pkgId then some a else acc)
  | _ :: rest, acc => capture_artifact pkgId rest acc

/-- `build_lib` reduced to its stream consumption and post-stream check
(src/src/apk.rs lines 359-381): the message stream is the list the
subprocess produced; an absent candidate is the failure signal. -/
def build_lib (pkgId : String) (messages : List Message) : Except String Artifact :=
  match capture_artifact pkgId messages none with
  | some a => Except.ok a
  | none => Except.error "Artifact not generated"

/-- Embeds `iter().position(|t| t == s)` over the crate-type list
(src/src/apk.rs lines 384-388): index of the first occurrence. -/
def position_of (s : String) : List String → Option Nat
  | [] => none
  | t :: rest => if t = s then some 0 else (position_of s rest).map (· + 1)

/-- Outcome of `artifact_cdylib`: the source either returns a path, returns
the `No cdylib built` error, or — when the filenames list is shorter than
the cdylib position — panics on the unchecked index `filenames[index]`.
The panic is a distinct outcome, not an `eyre` error. -/
inductive CdylibResult
  | ok (path : String)
  | err (msg : String)
  | panicIndexOutOfBounds
deriving DecidableEq, Repr

/-- `artifact_cdylib` (src/src/apk.rs lines 383-392, identical in
src/src/main.rs lines 357-366): position of `"cdylib"` in the crate-type
list, else the `No cdylib built` error; the returned filename is read with
an unchecked index. -/
def artifact_cdylib (artifact : Artifact) : CdylibResult :=
  match position_of "cdylib" artifact.target.crate_types with
  | none => CdylibResult.err "No cdylib built"
  | some index =>
      match artifact.filenames.get? index with
      | some f => CdylibResult.ok f
      | none => CdylibResult.panicIndexOutOfBounds

/-- Result of the SDK-resolution step: the deterministic jar path plus
whether the network download-and-extract was performed. -/
structure SdkResult where
  path : String
  downloaded : Bool
deriving DecidableEq, Repr

/-- `download_android_sdk` (src/src/apk.rs lines 496-513): computes the
cache path `<target_directory>/apk/platforms/android-<version>/android.jar`;
returns it immediately when the jar exists, otherwise performs the network
download-and-extract and returns it. `jarExists` is the outcome of the
`apk_path.exists()` probe. The function takes no offline input because the
source takes none. -/
def download_android_sdk (target_directory : String) (version : Nat)
    (jarExists : Bool) : SdkResult :=
  let apk_dir := target_directory ++ "/apk"
  let android := "android-" ++ toString version
  let apk_path := apk_dir ++ "/platforms/" ++ android ++ "/android.jar"
  if jarExists then { path := apk_path, downloaded := false }
  else { path := apk_path, downloaded := true }

/-- The SDK step as `build_apk` performs it (src/src/apk.rs line 279):
`download_android_sdk(&metadata.target_directory, 34)` is called
unconditionally — `options.offline` does not reach it. -/
def build_apk_sdk_step (offline : Bool) (target_directory : String)
    (jarExists : Bool) : SdkResult :=
  download_android_sdk target_directory 34 jarExists

/-- A UTF-8 path in the camino style: an absolute flag (a leading `/` root
component) plus the remaining components. -/
structure UPath where
  absolute : Bool
  components : List String
deriving DecidableEq, Repr

/-- camino's `strip_prefix("/")` as used on the cdylib path (src/src/apk.rs
line 281): removes the root component, failing when the path is not
absolute. -/
def strip_leading_root (p : UPath) : Except String UPath :=
  if p.absolute then Except.ok { absolute := false, components := p.components }
  else Except.error "StripPrefixError"

/-- camino's `join`: an absolute argument replaces the base, a relative one
is appended. -/
def path_join (base p : UPath) : UPath :=
  if p.absolute then p
  else { absolute := base.absolute, components := base.components ++ p.components }

/-- camino's `parent`: drops the final component; the empty relative path
and the bare root have no parent. -/
def path_parent (p : UPath) : Option UPath :=
  match p.components with
  | [] => none
  | _ => some { absolute := p.absolute, components := p.components.dropLast }

/-- The library- and output-path computation of `build_apk` (src/src/apk.rs
lines 281-286): the compiler-reported cdylib path is stripped of its root,
re-rooted at the workspace root, and the APK lands next to it as
`<package-name>.apk`. A `strip_prefix` failure propagates via `?` before
any packaging call (`Apk::new` and later) runs; the
`.expect("lib_path has parent")` panic is modelled as the error of that
message. Returns (re-rooted lib path, apk output path). -/
def build_apk_paths (workspace_root cdylib_path : UPath) (packageName : String) :
    Except String (UPath × UPath) :=
  match strip_leading_root cdylib_path with
  | Except.error e => Except.error e
  | Except.ok rel =>
      let lib_path := path_join workspace_root rel
      match path_parent lib_path with
      | none => Except.error "lib_path has parent"
      | some lib_parent =>
          Except.ok (lib_path, path_join lib_parent
            { absolute := false, components := [packageName ++ ".apk"] })

/-- A JSON value, as far as the metadata deserializer needs one. Numbers are
integers; the `u32` fields check the range on decode. -/
inductive Json
  | null
  | bool (b : Bool)
  | num (n : Int)
  | str (s : String)
  | arr (elems : List Json)
  | obj (fields : List (String × Json))

/-- serde decode of an `Option<String>` field value: JSON null is `None`, a
string is `Some`, anything else is a type error. -/
def decodeOptString : Json → Except String (Option String)
  | Json.null => Except.ok none
  | Json.str s => Except.ok (some s)
  | _ => Except.error "invalid type: expected a string"

/-- serde decode of an `Option<u32>` field value: JSON null is `None`, an
integer in `[0, 2^32)` is `Some`, anything else is a type error. -/
def decodeOptU32 : Json → Except String (Option Nat)
  | Json.null => Except.ok none
  | Json.num n =>
      if 0 ≤ n ∧ n < 4294967296 then Except.ok (some n.toNat)
      else Except.error "invalid value: integer out of range for u32"
  | _ => Except.error "invalid type: expected u32"

/-- serde decode of a `Vec<String>` field value. -/
def decodeStringList : Json → Except String (List String)
  | Json.arr elems =>
      elems.mapM (fun v =>
        match v with
        | Json.str s => Except.ok s
        | _ => Except.error "invalid type: expected a string")
  | _ => Except.error "invalid type: expected a sequence"

/-- Partial state of the field-by-field deserialization of `Metadata`
(src/src/apk.rs lines 109-129): `none` marks a field not yet seen. -/
structure MetadataAcc where
  package : Option (Option String) := none
  version_code : Option (Option Nat) := none
  version_name : Option (Option String) := none
  icon : Option (Option String) := none
  uses_feature : Option (List String) := none
  uses_permission : Option (List String) := none
deriving DecidableEq, Repr

/-- The kebab-case field names the derived deserializer of `Metadata`
accepts (`#[serde(rename_all = "kebab-case")]`, src/src/apk.rs line 111). -/
def metadataKnownFields : List String :=
  ["package", "version-code", "version-name", "icon",
   "uses-feature", "uses-permission"]

/-- One step of the derived `Deserialize` of `Metadata` with
`#[serde(deny_unknown_fields)]` (src/src/apk.rs lines 109-129): a known key
decodes into its slot (rejecting a duplicate), an unknown key is a schema
error. -/
def metadataApplyField (acc : MetadataAcc) (kv : String × Json) :
    Except String MetadataAcc :=
  if kv.1 = "package" then
    match acc.package with
    | some _ => Except.error "duplicate field package"
    | none =>
        match decodeOptString kv.2 with
        | Except.error e => Except.error e
        | Except.ok s => Except.ok { acc with package := some s }
  else if kv.1 = "version-code" then
    match acc.version_code with
    | some _ => Except.error "duplicate field version-code"
    | none =>
        match decodeOptU32 kv.2 with
        | Except.error e => Except.error e
        | Except.ok n => Except.ok { acc with version_code := some n }
  else if kv.1 = "version-name" then
    match acc.version_name with
    | some _ => Except.error "duplicate field version-name"
    | none =>
        match decodeOptString kv.2 with
        | Except.error e => Except.error e
        | Except.ok s => Except.ok { acc with version_name := some s }
  else if kv.1 = "icon" then
    match acc.icon with
    | some _ => Except.error "duplicate field icon"
    | none =>
        match decodeOptString kv.2 with
        | Except.error e => Except.error e
        | Except.ok s => Except.ok { acc with icon := some s }
  else if kv.1 = "uses-feature" then
    match acc.uses_feature with
    | some _ => Except.error "duplicate field uses-feature"
    | none =>
        match decodeStringList kv.2 with
        | Except.error e => Except.error e
        | Except.ok xs => Except.ok { acc with uses_feature := some xs }
  else if kv.1 = "uses-permission" then
    match acc.uses_permission with
    | some _ => Except.error "duplicate field uses-permission"
    | none =>
        match decodeStringList kv.2 with
        | Except.error e => Except.error e
        | Except.ok xs => Except.ok { acc with uses_permission := some xs }
  else Except.error ("unknown field " ++ kv.1)

/-- The field loop of the derived deserializer: fields are consumed left to
right; the first failing field aborts. -/
def metadataFoldFields : MetadataAcc → List (String × Json) → Except String MetadataAcc
  | acc, [] => Except.ok acc
  | acc, kv :: rest =>
      match metadataApplyField acc kv with
      | Except.error e => Except.error e
      | Except.ok acc' => metadataFoldFields acc' rest

/-- Deserialization of the `Metadata` block from a JSON value: the derived
deserializer folds over the object's fields, then fills serde defaults —
`None` for the `Option` fields and `[]` for the two `#[serde(default)]`
vectors. -/
def metadataFromJson : Json → Except String Metadata
  | Json.obj fields =>
      match metadataFoldFields {} fields with
      | Except.error e => Except.error e
      | Except.ok acc =>
          Except.ok
            { package := (acc.package).getD none
              version_code := (acc.version_code).getD none
              version_name := (acc.version_name).getD none
              icon := (acc.icon).getD none
              uses_feature := (acc.uses_feature).getD []
              uses_permission := (acc.uses_permission).getD [] }
  | _ => Except.error "invalid type: expected a map"

/-- `Metadata::from_package` (src/src/apk.rs lines 131-138): an absent
`package.metadata.apk` block yields `Metadata::default()`; a present one is
deserialized strictly. -/
def metadataFromPackage (apkBlock : Option Json) : Except String Metadata :=
  match apkBlock with
  | some value => metadataFromJson value
  | none => Except.ok {}

/-! ## Helper lemmas -/

lemma position_of_eq_none_iff (s : String) (l : List String) :
    position_of s l = none ↔ s ∉ l := by
  induction l with
  | nil => simp [position_of]
  | cons t rest ih =>
      by_cases h : t = s
      · subst h; simp [position_of]
      · simp [position_of, h, Option.map_eq_none', ih]
        exact fun _ e => h (Eq.symm e)

lemma capture_artifact_append_last (pkgId : String) (msgs : List Message)
    (a : Artifact) (acc : Option Artifact) (ha : a.package_id = pkgId) :
    capture_artifact pkgId (msgs ++ [Message.compilerArtifact a]) acc = some a := by
  induction msgs generalizing acc with
  | nil => simp [capture_artifact, ha]
  | cons m rest ih => cases m <;> simp [capture_artifact] <;> exact ih _

lemma capture_artifact_unmatched (pkgId : String) (msgs : List Message)
    (h : ∀ c, Message.compilerArtifact c ∈ msgs → c.package_id ≠ pkgId) :
    ∀ acc, capture_artifact pkgId msgs acc = acc := by
  induction msgs with
  | nil => intro acc; rfl
  | cons m rest ih =>
      intro acc
      have hrest : ∀ c, Message.compilerArtifact c ∈ rest → c.package_id ≠ pkgId :=
        fun c hc => h c (List.mem_cons_of_mem _ hc)
      cases m with
      | compilerArtifact b =>
          have hb : b.package_id ≠ pkgId := h b (List.mem_cons_self _ _)
          simp [capture_artifact, hb]
          exact ih hrest acc
      | compilerMessage s => exact ih hrest acc
      | buildScriptExecuted => exact ih hrest acc
      | buildFinished => exact ih hrest acc
      | textLine s => exact ih hrest acc
      | other => exact ih hrest acc

lemma metadataApplyField_unknown (acc : MetadataAcc) (k : String) (v : Json)
    (hk : k ∉ metadataKnownFields) :
    metadataApplyField acc (k, v) = Except.error ("unknown field " ++ k) := by
  simp only [metadataKnownFields, List.mem_cons, List.not_mem_nil, or_false,
    not_or] at hk
  obtain ⟨h1, h2, h3, h4, h5, h6⟩ := hk
  simp [metadataApplyField, h1, h2, h3, h4, h5, h6]

lemma metadataFoldFields_not_ok (fields : List (String × Json)) :
    ∀ (acc : MetadataAcc) (k : String) (v : Json),
      (k, v) ∈ fields → k ∉ metadataKnownFields →
      ∀ m, metadataFoldFields acc fields ≠ Except.ok m := by
  induction fields with
  | nil => intro acc k v hmem _ m; cases hmem
  | cons kv rest ih =>
      intro acc k v hmem hunk m
      rcases List.mem_cons.mp hmem with heq | htail
      · rw [← heq]
        simp [metadataFoldFields, metadataApplyField_unknown acc k v hunk]
      · cases happ : metadataApplyField acc kv with
        | error e => simp [metadataFoldFields, happ]
        | ok acc' =>
            simp only [metadataFoldFields, happ]
            exact ih acc' k v htail hunk m

/-! ## Claim theorems -/

/-- Claim C1 (code bug): the architecture/triple mapping does not round-trip.
`Device::target_triple` announces `arm7-linux-androideabi` for ArmV7a, but
the triple match in `build_apk` accepts only `arm7-linux-androidabi`, so the
install flow's inferred triple for an ArmV7a device is rejected as
unsupported. The other three architectures round-trip, and unrecognized
triple and ABI strings are hard failures. -/
theorem roundtrip_fails_at_armv7a :
    parse_target (target_triple Target.ArmV7a)
      = Except.error "Target 'arm7-linux-androideabi' is not supported for android"
    ∧ parse_target (target_triple Target.Arm64V8a) = Except.ok Target.Arm64V8a
    ∧ parse_target (target_triple Target.X86) = Except.ok Target.X86
    ∧ parse_target (target_triple Target.X86_64) = Except.ok Target.X86_64
    ∧ parse_target "riscv64-linux-android"
      = Except.error "Target 'riscv64-linux-android' is not supported for android"
    ∧ parse_abi "mips" = Except.error "Unknown abi `mips`" :=
  ⟨rfl, rfl, rfl, rfl, rfl, rfl⟩

/-- Claim C2 (code bug): `build_apk` reaches `download_android_sdk` with no
offline gate — when the cached jar is absent the network download-and-extract
is performed even with the offline flag set, and the outcome is identical to
the online run; no offline/resource-missing error exists in the code. -/
theorem offline_sdk_download_bug (dir : String) :
    (build_apk_sdk_step true dir false).downloaded = true
    ∧ build_apk_sdk_step true dir false = build_apk_sdk_step false dir false :=
  ⟨rfl, rfl⟩

/-- Claim C3 (counterexample): the zero-device failure and the two-device
failure of the install flow are the very same error value, carrying no
counts — the ambiguous-device case is not reported distinctly. -/
theorem device_errors_indistinct :
    select_device []
      = select_device
          [{ id := "a", arch := Target.Arm64V8a }, { id := "b", arch := Target.X86 }]
    ∧ select_device ([] : List Device)
      = Except.error "No device selected, use `--device`" :=
  ⟨rfl, rfl⟩

/-- Claim C3 (amended): exactly one attached device is auto-selected; zero or
multiple devices fail, but with the single fixed message `No device selected,
use --device`, identical in both cases and containing no counts. -/
theorem device_selection_amended (devices : List Device) :
    (∀ d, devices = [d] → select_device devices = Except.ok d)
    ∧ (devices.length ≠ 1 →
        select_device devices = Except.error "No device selected, use `--device`") := by
  cases devices with
  | nil =>
      refine ⟨fun d h => ?_, fun _ => rfl⟩
      exact absurd h (by simp)
  | cons d rest =>
      cases rest with
      | nil =>
          refine ⟨fun d' h => ?_, fun h => absurd rfl h⟩
          rw [List.cons.injEq] at h
          rw [h.1]
          rfl
      | cons d2 rest2 => exact ⟨fun d' h => by simp at h, fun _ => rfl⟩

/-- Witness for the amended claim C3 at concrete device lists. -/
theorem device_selection_amended_witness :
    select_device [{ id := "deadbeef001", arch := Target.Arm64V8a }]
      = Except.ok { id := "deadbeef001", arch := Target.Arm64V8a }
    ∧ select_device ([] : List Device)
      = Except.error "No device selected, use `--device`" :=
  ⟨(device_selection_amended _).1 _ rfl, (device_selection_amended []).2 (by decide)⟩

/-- Claim C4: target resolution precedence — an explicit `--target` is kept
by the install flow and accepted by `build_apk`; an absent one is filled from
the selected device's triple in the install flow; a still-absent target makes
`build_apk` fail with the `Target not specified` error. -/
theorem target_resolution_precedence (t : String) (d : Device) :
    install_resolve_target (some t) d = some t
    ∧ install_resolve_target none d = some (target_triple d.arch)
    ∧ require_target (some t) = Except.ok t
    ∧ require_target none
      = Except.error "Target not specified, use `--target` to do so" :=
  ⟨rfl, rfl, rfl, rfl⟩

/-- Claim C5: manifest synthesis for project `my-app`, version `1.2.3`, with
no metadata overrides — the package id is the fixed `.`-prefixed
dash-normalized project name `.my_app`, the version code defaults to 1, and
the version name defaults to the semantic version string. -/
theorem manifest_defaults_my_app :
    (apk_manifest "my-app" "1.2.3" {} {}).package
      = some ("." ++ replaceDashUnderscore "my-app")
    ∧ (apk_manifest "my-app" "1.2.3" {} {}).package = some ".my_app"
    ∧ (apk_manifest "my-app" "1.2.3" {} {}).version_code = some 1
    ∧ (apk_manifest "my-app" "1.2.3" {} {}).version_name = some "1.2.3" :=
  ⟨rfl, by decide, rfl, rfl⟩

/-- Claim C6: artifact capture is last-write-wins — appending a matching
compiler-artifact message to any stream makes it the captured artifact; a
stream with no matching artifact message fails with `Artifact not generated`;
a captured artifact without a cdylib crate type fails with the distinct
`No cdylib built` error. -/
theorem artifact_selection_last_write_wins (pkgId : String)
    (stream quiet : List Message) (a b : Artifact)
    (ha : a.package_id = pkgId)
    (hquiet : ∀ c, Message.compilerArtifact c ∈ quiet → c.package_id ≠ pkgId)
    (hb : "cdylib" ∉ b.target.crate_types) :
    build_lib pkgId (stream ++ [Message.compilerArtifact a]) = Except.ok a
    ∧ build_lib pkgId quiet = Except.error "Artifact not generated"
    ∧ artifact_cdylib b = CdylibResult.err "No cdylib built"
    ∧ ("No cdylib built" : String) ≠ "Artifact not generated" := by
  refine ⟨?_, ?_, ?_, by decide⟩
  · unfold build_lib
    rw [capture_artifact_append_last pkgId stream a none ha]
  · unfold build_lib
    rw [capture_artifact_unmatched pkgId quiet hquiet none]
  · unfold artifact_cdylib
    rw [(position_of_eq_none_iff _ _).mpr hb]

/-- Witness for claim C6: an incremental second artifact message for the
same package supersedes the first; a stream with only a text line yields
`Artifact not generated`; a rlib-only artifact yields `No cdylib built`. -/
theorem artifact_selection_witness :
    build_lib "p 0.1.0"
        [Message.compilerArtifact
           { package_id := "p 0.1.0", target := { crate_types := ["lib"] },
             filenames := ["/w/liba.rlib"] },
         Message.compilerArtifact
           { package_id := "p 0.1.0", target := { crate_types := ["cdylib"] },
             filenames := ["/w/liba.so"] }]
      = Except.ok
          { package_id := "p 0.1.0", target := { crate_types := ["cdylib"] },
            filenames := ["/w/liba.so"] }
    ∧ build_lib "p 0.1.0" [Message.textLine "warning: unused"]
      = Except.error "Artifact not generated"
    ∧ artifact_cdylib
        { package_id := "p 0.1.0", target := { crate_types := ["lib"] },
          filenames := ["/w/liba.rlib"] }
      = CdylibResult.err "No cdylib built" := by
  have h := artifact_selection_last_write_wins "p 0.1.0"
    [Message.compilerArtifact
       { package_id := "p 0.1.0", target := { crate_types := ["lib"] },
         filenames := ["/w/liba.rlib"] }]
    [Message.textLine "warning: unused"]
    { package_id := "p 0.1.0", target := { crate_types := ["cdylib"] },
      filenames := ["/w/liba.so"] }
    { package_id := "p 0.1.0", target := { crate_types := ["lib"] },
      filenames := ["/w/liba.rlib"] }
    rfl (by intro c hc; simp at hc) (by decide)
  exact ⟨h.1, h.2.1, h.2.2.1⟩

/-- Claim C7: manifest field resolution — an explicit package-metadata
version code of 7 wins over the computed default; an absent general-metadata
name makes the application label fall back to the project name, while a
present one wins over that fallback. -/
theorem manifest_field_resolution_order :
    (apk_manifest "my-app" "1.2.3" {} { version_code := some 7 }).version_code
      = some 7
    ∧ (apk_manifest "my-app" "1.2.3" {} {}).application.label = some "my-app"
    ∧ (apk_manifest "my-app" "1.2.3" { name := some "Nice App" } {}).application.label
      = some "Nice App" :=
  ⟨rfl, rfl, rfl⟩

/-- Claim C8: metadata resolution — an absent `package.metadata.apk` block
yields the all-default value; a block containing any unknown field never
deserializes successfully; a block with a subset of known fields overlays
those fields onto the defaults per-field, keeping the rest at their
defaults. -/
theorem metadata_resolution_strict_overlay
    (fields : List (String × Json)) (k : String) (v : Json)
    (hmem : (k, v) ∈ fields) (hunk : k ∉ metadataKnownFields) :
    metadataFromPackage none = Except.ok {}
    ∧ (∀ m, metadataFromJson (Json.obj fields) ≠ Except.ok m)
    ∧ metadataFromJson (Json.obj [("version-code", Json.num 7)])
      = Except.ok { version_code := some 7 }
    ∧ metadataFromJson
        (Json.obj [("version-code", Json.num 7), ("icon", Json.str "icon.png")])
      = Except.ok { version_code := some 7, icon := some "icon.png" } := by
  refine ⟨rfl, ?_, rfl, rfl⟩
  intro m hcontra
  cases hfold : metadataFoldFields {} fields with
  | error e => simp [metadataFromJson, hfold] at hcontra
  | ok acc => exact metadataFoldFields_not_ok fields {} k v hmem hunk acc hfold

/-- Witness for claim C8 at a concrete unknown field. -/
theorem metadata_resolution_witness :
    metadataFromPackage none = Except.ok {}
    ∧ (∀ m, metadataFromJson (Json.obj [("version-typo", Json.num 7)])
        ≠ Except.ok m)
    ∧ metadataFromJson (Json.obj [("version-code", Json.num 7)])
      = Except.ok { version_code := some 7 } := by
  have h := metadata_resolution_strict_overlay
    [("version-typo", Json.num 7)] "version-typo" (Json.num 7)
    (List.mem_singleton.mpr rfl) (by decide)
  exact ⟨h.1, h.2.1, h.2.2.1⟩

/-- Claim C9: `artifact_cdylib` fails with `No cdylib built` exactly when no
cdylib crate type is declared; when `cdylib` first occurs at position `i`,
the filename at index `i` is returned if the filenames list reaches it, and
the unchecked index panics (out-of-bounds) when the filenames list is
shorter. -/
theorem artifact_cdylib_index_safety (artifact : Artifact) :
    (artifact_cdylib artifact = CdylibResult.err "No cdylib built"
      ↔ "cdylib" ∉ artifact.target.crate_types)
    ∧ (∀ i, position_of "cdylib" artifact.target.crate_types = some i →
        (∀ f, artifact.filenames[i]? = some f →
          artifact_cdylib artifact = CdylibResult.ok f)
        ∧ (artifact.filenames.length ≤ i →
          artifact_cdylib artifact = CdylibResult.panicIndexOutOfBounds)) := by
  constructor
  · constructor
    · intro h
      cases hpos : position_of "cdylib" artifact.target.crate_types with
      | none => exact (position_of_eq_none_iff _ _).mp hpos
      | some i =>
          exfalso
          cases hget : artifact.filenames[i]? with
          | none => simp [artifact_cdylib, hpos, hget] at h
          | some f => simp [artifact_cdylib, hpos, hget] at h
    · intro hmem
      unfold artifact_cdylib
      rw [(position_of_eq_none_iff _ _).mpr hmem]
  · intro i hpos
    constructor
    · intro f hget
      simp [artifact_cdylib, hpos, hget]
    · intro hlen
      simp [artifact_cdylib, hpos, List.getElem?_eq_none hlen]

/-- Witness for claim C9: with crate types `[lib, cdylib]` the filename at
index 1 is returned when present, and the access is out of bounds when the
filenames list has only one entry. -/
theorem artifact_cdylib_index_safety_witness :
    artifact_cdylib
        { package_id := "p", target := { crate_types := ["lib", "cdylib"] },
          filenames := ["/w/liba.rlib", "/w/liba.so"] }
      = CdylibResult.ok "/w/liba.so"
    ∧ artifact_cdylib
        { package_id := "p", target := { crate_types := ["lib", "cdylib"] },
          filenames := ["/w/liba.rlib"] }
      = CdylibResult.panicIndexOutOfBounds := by
  constructor
  · exact ((artifact_cdylib_index_safety
      { package_id := "p", target := { crate_types := ["lib", "cdylib"] },
        filenames := ["/w/liba.rlib", "/w/liba.so"] }).2 1 (by decide)).1
      "/w/liba.so" rfl
  · exact ((artifact_cdylib_index_safety
      { package_id := "p", target := { crate_types := ["lib", "cdylib"] },
        filenames := ["/w/liba.rlib"] }).2 1 (by decide)).2 (by decide)

/-- Claim C10: the cdylib path computation of `build_apk` — a non-absolute
reported path fails with the strip error before any packaging step; on
success the library path is the workspace root joined with the stripped
components, and the APK path is the parent of that library path joined with
`<package-name>.apk`. -/
theorem apk_output_path_shape (workspace_root cdylib_path : UPath)
    (name : String) :
    (cdylib_path.absolute = false →
      build_apk_paths workspace_root cdylib_path name
        = Except.error "StripPrefixError")
    ∧ (∀ lib apkp,
        build_apk_paths workspace_root cdylib_path name = Except.ok (lib, apkp) →
        cdylib_path.absolute = true
        ∧ lib = path_join workspace_root
            { absolute := false, components := cdylib_path.components }
        ∧ ∃ par, path_parent lib = some par
            ∧ apkp = path_join par
                { absolute := false, components := [name ++ ".apk"] }) := by
  constructor
  · intro h
    simp [build_apk_paths, strip_leading_root, h]
  · intro lib apkp hok
    by_cases habs : cdylib_path.absolute
    · refine ⟨habs, ?_⟩
      simp only [build_apk_paths, strip_leading_root, habs, if_true] at hok
      cases hpar : path_parent (path_join workspace_root
          { absolute := false, components := cdylib_path.components }) with
      | none => rw [hpar] at hok; cases hok
      | some par =>
          rw [hpar] at hok
          rw [Except.ok.injEq, Prod.mk.injEq] at hok
          refine ⟨hok.1.symm, par, ?_, hok.2.symm⟩
          rw [← hok.1, hpar]
    · exfalso
      simp only [build_apk_paths, strip_leading_root, habs, if_false] at hok
      cases hok

/-- Witness for claim C10: a relative reported path fails with the strip
error; an absolute one yields the re-rooted library path and the sibling
`my-app.apk` output path. -/
theorem apk_output_path_shape_witness :
    build_apk_paths { absolute := true, components := ["w"] }
        { absolute := false, components := ["lib.so"] } "my-app"
      = Except.error "StripPrefixError"
    ∧ (({ absolute := true, components := ["t", "lib.so"] } : UPath).absolute = true
        ∧ ({ absolute := true, components := ["w", "t", "lib.so"] } : UPath)
          = path_join { absolute := true, components := ["w"] }
              { absolute := false, components := ["t", "lib.so"] }
        ∧ ∃ par,
            path_parent ({ absolute := true, components := ["w", "t", "lib.so"] } : UPath)
              = some par
            ∧ ({ absolute := true, components := ["w", "t", "my-app.apk"] } : UPath)
              = path_join par { absolute := false, components := ["my-app.apk"] }) := by
  constructor
  · exact (apk_output_path_shape
      { absolute := true, components := ["w"] }
      { absolute := false, components := ["lib.so"] } "my-app").1 rfl
  · exact (apk_output_path_shape
      { absolute := true, components := ["w"] }
      { absolute := true, components := ["t", "lib.so"] } "my-app").2
      { absolute := true, components := ["w", "t", "lib.so"] }
      { absolute := true, components := ["w", "t", "my-app.apk"] } rfl

end CargoOri
